import Mathlib

/-!
Verification development for the retrieval-augmented answering agent of an
Ollama-backed chat application.  The definitions below are shallow embeddings
of the TypeScript services (`agent`, `rag.ts`, `web-search.ts`, the agent API
route).  Machine integers do not occur; scores are rationals, counters are
naturals.  Asynchronous code is modelled by explicit outcome values
(`Except String _`) and, for the progress-callback channel, by a small
state-passing function type that records delivered progress events and
propagates a thrown callback error.
-/

/-- Substring test on character lists: `containsSeq needle hay` is `true` iff
`needle` occurs contiguously inside `hay`.  This models JavaScript
`String.prototype.includes`. -/
def containsSeq (needle : List Char) : List Char → Bool
  | [] => needle.isEmpty
  | c :: rest => needle.isPrefixOf (c :: rest) || containsSeq needle rest

theorem isPrefixOf_append_self (l t : List Char) : l.isPrefixOf (l ++ t) = true := by
  induction l with
  | nil => simp [List.isPrefixOf]
  | cons c cs ih => simp [List.isPrefixOf, ih]

theorem containsSeq_of_pref (n t : List Char) (h : n.isPrefixOf t = true) :
    containsSeq n t = true := by
  cases t with
  | nil =>
      cases n with
      | nil => rfl
      | cons c cs => simp [List.isPrefixOf] at h
  | cons c rest => simp [containsSeq, h]

theorem containsSeq_cons (n : List Char) (c : Char) (rest : List Char)
    (h : containsSeq n rest = true) : containsSeq n (c :: rest) = true := by
  simp [containsSeq, h]

theorem containsSeq_append (a b n : List Char) :
    containsSeq n (a ++ n ++ b) = true := by
  induction a with
  | nil =>
      simp only [List.nil_append]
      exact containsSeq_of_pref _ _ (isPrefixOf_append_self n b)
  | cons x xs ih =>
      simp only [List.cons_append]
      exact containsSeq_cons _ _ _ ih

/-- String-level substring test, modelling JavaScript `includes`. -/
def strContains (hay needle : String) : Bool := containsSeq needle.data hay.data

/-! ### Tool selection (agent service)

Embedding of `AIAgent.advancedHeuristicDecision`, the keyword-scoring
fallback used when LLM-based classification fails or yields no valid tool
JSON.  Lowercasing models JavaScript `toLowerCase` on the ASCII range; the
two regular expressions of the source are modelled by explicit scanners. -/

inductive Tool
  | RAG
  | WebSearch
  | Both
deriving DecidableEq, Repr

namespace AIAgent

/-- Lowercased character sequence of the query (`query.toLowerCase()`). -/
def lowerData (q : String) : List Char := q.data.map Char.toLower

def webStrong : List String :=
  ["latest", "current", "today", "yesterday", "tomorrow", "breaking",
   "trending", "live", "real-time", "now", "recent", "update"]

def webMedium : List String :=
  ["news", "2023", "2024", "2025", "2026", "price", "weather", "stock",
   "market"]

def webWeak : List String :=
  ["compare", "versus", "vs", "difference", "best", "top"]

def ragStrong : List String :=
  ["authrix", "fueldev", "grenish", "detoxify", "ai cookbook", "our system",
   "our documentation", "internal"]

def ragMedium : List String :=
  ["documentation", "guide", "tutorial", "api", "configuration", "setup",
   "installation"]

def ragWeak : List String :=
  ["explain", "describe", "what is", "how to", "define"]

/-- Number of keywords of `kws` occurring in `lower`
(`keywords.filter((k) => lower.includes(k)).length`). -/
def hits (lower : List Char) (kws : List String) : Nat :=
  (kws.filter (fun k => containsSeq k.data lower)).length

/-- JavaScript word character (`\w`): ASCII letters, digits, underscore. -/
def isWordChar (c : Char) : Bool :=
  (('a' ≤ c && c ≤ 'z') || ('A' ≤ c && c ≤ 'Z') || ('0' ≤ c && c ≤ '9')
    || c == '_')

def isDigitChar (c : Char) : Bool := '0' ≤ c && c ≤ '9'

/-- Does `\b20\d{2}\b` match starting at the head of the list (the char
before the head being `prev`)?  Checks both word boundaries. -/
def yearAtHead : List Char → Bool
  | c1 :: c2 :: c3 :: c4 :: rest =>
      c1 == '2' && c2 == '0' && isDigitChar c3 && isDigitChar c4 &&
        (match rest with
         | [] => true
         | e :: _ => !isWordChar e)
  | _ => false

/-- Scanner for the test `/\b20\d{2}\b/.test(lower)`. -/
def hasYearFrom (prev : Option Char) : List Char → Bool
  | [] => false
  | c :: rest =>
      ((match prev with
        | none => true
        | some p => !isWordChar p) && yearAtHead (c :: rest))
      || hasYearFrom (some c) rest

def hasYear (lower : List Char) : Bool := hasYearFrom none lower

/-- JavaScript whitespace class `\s`, restricted to the ASCII range. -/
def isSpaceChar (c : Char) : Bool :=
  c == ' ' || c == '\t' || c == '\n' || c == '\x0d' || c == '\x0b' ||
    c == '\x0c'

/-- Drop a literal word if it heads the list. -/
def dropLit (w : List Char) (l : List Char) : Option (List Char) :=
  if w.isPrefixOf l then some (l.drop w.length) else none

/-- Try a list of literal alternatives in order (none is a proper
initial segment of another, so first-match is unambiguous). -/
def dropAlt (alts : List String) (l : List Char) : Option (List Char) :=
  match alts with
  | [] => none
  | a :: rest =>
      match dropLit a.data l with
      | some l2 => some l2
      | none => dropAlt rest l

/-- Drop one or more whitespace characters (`\s+`). -/
def dropWs1 (l : List Char) : Option (List Char) :=
  match l with
  | [] => none
  | c :: rest =>
      if isSpaceChar c then some (rest.dropWhile isSpaceChar) else none

/-- Does one of the literals head the list? -/
def headAlt (alts : List String) (l : List Char) : Bool :=
  (dropAlt alts l).isSome

/-- Matcher for the anchored test
`/^(what|who|when|where|why|how)\s+(is|are|was|were|has|have)\s+(the\s+)?(latest|current|recent)/.test(lower)`. -/
def questionWebMatch (lower : List Char) : Bool :=
  match dropAlt ["what", "who", "when", "where", "why", "how"] lower with
  | none => false
  | some l1 =>
      match dropWs1 l1 with
      | none => false
      | some l2 =>
          match dropAlt ["is", "are", "was", "were", "has", "have"] l2 with
          | none => false
          | some l3 =>
              match dropWs1 l3 with
              | none => false
              | some l4 =>
                  (match dropLit "the".data l4 with
                   | some l5 =>
                       match dropWs1 l5 with
                       | some l6 =>
                           headAlt ["latest", "current", "recent"] l6
                       | none => false
                   | none => false)
                  || headAlt ["latest", "current", "recent"] l4

/-- The web-worthiness score accumulated by `advancedHeuristicDecision`:
strong keywords weigh 3, medium 2, weak 1; an explicit `20xx` year adds 4;
a "what/who/... is/are/... latest/current/recent" question adds 3. -/
def webScore (q : String) : Nat :=
  let lower := lowerData q
  hits lower webStrong * 3 + hits lower webMedium * 2 + hits lower webWeak
    + (if hasYear lower then 4 else 0)
    + (if questionWebMatch lower then 3 else 0)

/-- The local-worthiness score: strong keywords weigh 3, medium 2, weak 1. -/
def ragScore (q : String) : Nat :=
  let lower := lowerData q
  hits lower ragStrong * 3 + hits lower ragMedium * 2 + hits lower ragWeak

/-- Embedding of `AIAgent.advancedHeuristicDecision`: `Both` when both
scores are positive and within 3 of each other, otherwise the strictly
higher score wins, with `RAG` as the final default. -/
def advancedHeuristicDecision (q : String) : Tool :=
  let w := webScore q
  let r := ragScore q
  if 0 < w ∧ 0 < r ∧ ((w : Int) - (r : Int)).natAbs < 3 then Tool.Both
  else if r < w then Tool.WebSearch
  else if w < r then Tool.RAG
  else Tool.RAG

end AIAgent

/-- C2: when LLM-based classification is unavailable, the heuristic fallback
returns `Both` exactly when both keyword scores are strictly positive and
their absolute difference is below the tie margin (3); otherwise it returns
the tool whose score is strictly higher; and when both scores are zero it
returns the local-knowledge tool (`RAG`). -/
theorem heuristic_fallback_characterization (q : String) :
    (AIAgent.advancedHeuristicDecision q = Tool.Both ↔
      (0 < AIAgent.webScore q ∧ 0 < AIAgent.ragScore q ∧
        ((AIAgent.webScore q : Int) - (AIAgent.ragScore q : Int)).natAbs < 3))
    ∧ (¬ (0 < AIAgent.webScore q ∧ 0 < AIAgent.ragScore q ∧
          ((AIAgent.webScore q : Int) - (AIAgent.ragScore q : Int)).natAbs < 3) →
        (AIAgent.ragScore q < AIAgent.webScore q →
          AIAgent.advancedHeuristicDecision q = Tool.WebSearch)
        ∧ (AIAgent.webScore q < AIAgent.ragScore q →
          AIAgent.advancedHeuristicDecision q = Tool.RAG))
    ∧ (AIAgent.webScore q = 0 ∧ AIAgent.ragScore q = 0 →
        AIAgent.advancedHeuristicDecision q = Tool.RAG) := by
  set w := AIAgent.webScore q with hw
  set r := AIAgent.ragScore q with hr
  have hd : AIAgent.advancedHeuristicDecision q =
      if 0 < w ∧ 0 < r ∧ ((w : Int) - (r : Int)).natAbs < 3 then Tool.Both
      else if r < w then Tool.WebSearch
      else if w < r then Tool.RAG
      else Tool.RAG := rfl
  by_cases h1 : 0 < w ∧ 0 < r ∧ ((w : Int) - (r : Int)).natAbs < 3
  · rw [if_pos h1] at hd
    exact ⟨⟨fun _ => h1, fun _ => hd⟩, fun hc => absurd h1 hc,
      fun hz => absurd h1.1 (by omega)⟩
  · rw [if_neg h1] at hd
    refine ⟨⟨fun hB => ?_, fun hcond => absurd hcond h1⟩,
      fun _ => ⟨fun hlt => ?_, fun hlt => ?_⟩, fun hz => ?_⟩
    · rw [hd] at hB
      split_ifs at hB
    · rw [hd, if_pos hlt]
    · rw [hd, if_neg (by omega), if_pos hlt]
    · rw [hd, if_neg (by omega), if_neg (by omega)]

/-- C2 witness: on "What happened in the news today?" the web score (5)
strictly dominates the local score (0), so the fallback returns
`WebSearch`. -/
theorem heuristic_fallback_characterization_witness :
    AIAgent.advancedHeuristicDecision "What happened in the news today?" =
      Tool.WebSearch :=
  ((heuristic_fallback_characterization
      "What happened in the news today?").2.1 (by decide)).1 (by decide)

/-- C7 counterexample: on "hello" the two keyword scores are equal (both 0),
yet the fallback returns `RAG`, not `Both`; so equal scores do not always
yield `Both`. -/
theorem equal_scores_not_always_both :
    AIAgent.webScore "hello" = AIAgent.ragScore "hello" ∧
    AIAgent.advancedHeuristicDecision "hello" ≠ Tool.Both := by decide

/-- C7 (amended): a query whose two heuristic keyword scores are equal and
strictly positive is classified `Both` by the fallback; when the equal
scores are zero the fallback returns `RAG` instead. -/
theorem equal_scores_heuristic (q : String) :
    (AIAgent.webScore q = AIAgent.ragScore q → 0 < AIAgent.webScore q →
      AIAgent.advancedHeuristicDecision q = Tool.Both)
    ∧ (AIAgent.webScore q = AIAgent.ragScore q → AIAgent.webScore q = 0 →
      AIAgent.advancedHeuristicDecision q = Tool.RAG) := by
  have hd : AIAgent.advancedHeuristicDecision q =
      if 0 < AIAgent.webScore q ∧ 0 < AIAgent.ragScore q ∧
          ((AIAgent.webScore q : Int) - (AIAgent.ragScore q : Int)).natAbs < 3
        then Tool.Both
      else if AIAgent.ragScore q < AIAgent.webScore q then Tool.WebSearch
      else if AIAgent.webScore q < AIAgent.ragScore q then Tool.RAG
      else Tool.RAG := rfl
  constructor
  · intro heq hpos
    rw [hd, if_pos ⟨hpos, heq ▸ hpos, by omega⟩]
  · intro heq hzero
    rw [hd, if_neg (by omega), if_neg (by omega), if_neg (by omega)]

/-- C7 amended-claim witness: "compare explain" scores 1 on each side, and
the fallback classifies it `Both`. -/
theorem equal_scores_heuristic_witness :
    AIAgent.advancedHeuristicDecision "compare explain" = Tool.Both :=
  (equal_scores_heuristic "compare explain").1 (by decide) (by decide)

/-! ### Local knowledge store (`rag.ts`)

`RAGService.search` post-processes a reply of the vector index: flatten the
nested arrays, drop falsy documents, convert distances to similarity scores
(`1 - distance`), filter by the minimum-similarity threshold, and render a
numbered context or the no-documents sentinel. -/

namespace RAGService

abbrev Metadata := List (String × String)

structure RAGSource where
  document : String
  metadata : Metadata
  score : Option ℚ
deriving DecidableEq, Repr

structure RAGSearchResult where
  content : String
  sources : List RAGSource
deriving DecidableEq, Repr

structure RAGConfig where
  topKResults : Nat
  minSimilarityScore : ℚ
deriving Repr

/-- The flattened reply of the backing index for one query: parallel arrays
of (possibly null) documents, distances and metadata, ranked by
similarity. -/
structure ChromaReply where
  documents : List (Option String)
  distances : List (Option ℚ)
  metadatas : List (Option Metadata)
deriving Repr

/-- `results.documents?.flat().filter(Boolean)`: drops nulls and empty
strings (both falsy in JavaScript). -/
def flattenDocs (docs : List (Option String)) : List String :=
  docs.filterMap (fun od =>
    match od with
    | some s => if s = "" then none else some s
    | none => none)

/-- The mapped (pre-filter) source entries: document text, metadata
(defaulting to the empty object) and score `1 - distance` when the distance
at the same position is present and non-null. -/
def ragCandidates (reply : ChromaReply) : List RAGSource :=
  (flattenDocs reply.documents).mapIdx (fun idx doc =>
    { document := doc
      metadata := ((reply.metadatas.get? idx).map (fun om => om.getD [])).getD []
      score :=
        match reply.distances.get? idx with
        | some (some d) => some (1 - d)
        | _ => none })

/-- The similarity filter: keep a source whose score is undefined, or at
least the configured minimum similarity. -/
def keepSource (minSim : ℚ) (s : RAGSource) : Bool :=
  match s.score with
  | none => true
  | some v => decide (minSim ≤ v)

def sentinelContent : String :=
  "No relevant documents found in local knowledge base."

/-- Embedding of `RAGService.search` after the index query resolved to
`reply`. -/
def search (cfg : RAGConfig) (reply : ChromaReply) : RAGSearchResult :=
  let sources := (ragCandidates reply).filter (keepSource cfg.minSimilarityScore)
  if sources.isEmpty then
    { content := sentinelContent, sources := [] }
  else
    { content := String.intercalate "\n\n---\n\n"
        (sources.mapIdx (fun i s => "[" ++ toString (i + 1) ++ "] " ++ s.document))
      sources := sources }

end RAGService

/-- C3: `search` returns as sources exactly the candidate neighbors whose
score is undefined or at least the minimum-similarity threshold, in index
order (the result list is the order-preserving filter of the candidates);
every returned source satisfies the threshold predicate; and when no
neighbor survives the filter, `search` returns the sentinel content with an
empty sources array instead of failing. -/
theorem rag_search_filter_spec (cfg : RAGService.RAGConfig)
    (reply : RAGService.ChromaReply) :
    ((RAGService.search cfg reply).sources =
      (RAGService.ragCandidates reply).filter
        (fun s => match s.score with
          | none => true
          | some v => decide (cfg.minSimilarityScore ≤ v)))
    ∧ (∀ s ∈ (RAGService.search cfg reply).sources,
        s.score = none ∨ ∃ v, s.score = some v ∧ cfg.minSimilarityScore ≤ v)
    ∧ ((RAGService.ragCandidates reply).filter
        (RAGService.keepSource cfg.minSimilarityScore) = [] →
      RAGService.search cfg reply =
        { content := RAGService.sentinelContent, sources := [] }) := by
  have hkeep : (fun s : RAGService.RAGSource => match s.score with
      | none => true
      | some v => decide (cfg.minSimilarityScore ≤ v)) =
      RAGService.keepSource cfg.minSimilarityScore := by
    funext s
    rfl
  have hsrc : (RAGService.search cfg reply).sources =
      (RAGService.ragCandidates reply).filter
        (RAGService.keepSource cfg.minSimilarityScore) := by
    unfold RAGService.search
    cases hl : (RAGService.ragCandidates reply).filter
        (RAGService.keepSource cfg.minSimilarityScore) with
    | nil => simp
    | cons a t => simp
  refine ⟨by rw [hkeep]; exact hsrc, ?_, ?_⟩
  · intro s hs
    rw [hsrc] at hs
    have hk := List.of_mem_filter hs
    unfold RAGService.keepSource at hk
    cases hsc : s.score with
    | none => exact Or.inl rfl
    | some v =>
        right
        refine ⟨v, rfl, ?_⟩
        rw [hsc] at hk
        simpa using hk
  · intro h
    unfold RAGService.search
    rw [h]
    simp

/-- C3 witness: an empty reply (empty collection) yields the sentinel
content and the empty sources array. -/
theorem rag_search_filter_spec_witness :
    RAGService.search { topKResults := 5, minSimilarityScore := 3 / 10 }
        { documents := [], distances := [], metadatas := [] } =
      { content := RAGService.sentinelContent, sources := [] } :=
  (rag_search_filter_spec { topKResults := 5, minSimilarityScore := 3 / 10 }
    { documents := [], distances := [], metadatas := [] }).2.2 (by decide)

/-! ### Document identifiers (`RAGService.addDocuments`)

`addDocuments` assigns `doc-<Date.now()>-<index>` to the documents of one
call.  To reason about collisions we prove that decimal rendering of
naturals (`Nat.repr`) is injective and dash-free. -/

def digitVal (c : Char) : Nat := c.toNat - 48

def evalDigits (l : List Char) : Nat :=
  l.foldl (fun a c => a * 10 + digitVal c) 0

theorem toDigitsCore_acc (fuel : Nat) :
    ∀ (n : Nat) (acc : List Char),
      Nat.toDigitsCore 10 fuel n acc = Nat.toDigitsCore 10 fuel n [] ++ acc := by
  induction fuel with
  | zero => intro n acc; simp [Nat.toDigitsCore]
  | succ fuel ih =>
      intro n acc
      by_cases h : n / 10 = 0
      · simp [Nat.toDigitsCore, h]
      · simp only [Nat.toDigitsCore, h, if_false]
        rw [ih (n / 10) (Nat.digitChar (n % 10) :: acc),
          ih (n / 10) [Nat.digitChar (n % 10)]]
        simp

theorem evalDigits_append_one (xs : List Char) (c : Char) :
    evalDigits (xs ++ [c]) = evalDigits xs * 10 + digitVal c := by
  simp [evalDigits, List.foldl_append]

theorem digitVal_digitChar : ∀ m, m < 10 → digitVal (Nat.digitChar m) = m := by
  decide

theorem evalDigits_toDigitsCore (fuel : Nat) :
    ∀ n, n < fuel → evalDigits (Nat.toDigitsCore 10 fuel n []) = n := by
  induction fuel with
  | zero => intro n h; omega
  | succ fuel ih =>
      intro n h
      by_cases h0 : n / 10 = 0
      · simp only [Nat.toDigitsCore, h0, if_true]
        have hn : n < 10 := by omega
        have : evalDigits [Nat.digitChar (n % 10)] = digitVal (Nat.digitChar (n % 10)) := by
          simp [evalDigits]
        rw [this, Nat.mod_eq_of_lt hn, digitVal_digitChar n hn]
      · simp only [Nat.toDigitsCore, h0, if_false]
        rw [toDigitsCore_acc fuel (n / 10) [Nat.digitChar (n % 10)],
          evalDigits_append_one, ih (n / 10) (by omega),
          digitVal_digitChar (n % 10) (by omega)]
        omega

theorem repr_data (n : Nat) :
    (Nat.repr n).data = Nat.toDigitsCore 10 (n + 1) n [] := rfl

theorem nat_repr_inj {m n : Nat} (h : Nat.repr m = Nat.repr n) : m = n := by
  have hd : (Nat.repr m).data = (Nat.repr n).data := by rw [h]
  rw [repr_data, repr_data] at hd
  calc m = evalDigits (Nat.toDigitsCore 10 (m + 1) m []) :=
        (evalDigits_toDigitsCore (m + 1) m (by omega)).symm
    _ = evalDigits (Nat.toDigitsCore 10 (n + 1) n []) := by rw [hd]
    _ = n := evalDigits_toDigitsCore (n + 1) n (by omega)

theorem digitChar_lt_ten_ne_dash : ∀ m, m < 10 → Nat.digitChar m ≠ '-' := by
  decide

theorem toDigitsCore_ne_dash (fuel : Nat) :
    ∀ n, ∀ c ∈ Nat.toDigitsCore 10 fuel n [], c ≠ '-' := by
  induction fuel with
  | zero => intro n c hc; simp [Nat.toDigitsCore] at hc
  | succ fuel ih =>
      intro n c hc
      by_cases h0 : n / 10 = 0
      · simp only [Nat.toDigitsCore, h0, if_true] at hc
        simp at hc
        rw [hc]
        exact digitChar_lt_ten_ne_dash (n % 10) (Nat.mod_lt n (by omega))
      · simp only [Nat.toDigitsCore, h0, if_false] at hc
        rw [toDigitsCore_acc fuel (n / 10) [Nat.digitChar (n % 10)]] at hc
        rcases List.mem_append.1 hc with hin | hin
        · exact ih (n / 10) c hin
        · simp at hin
          rw [hin]
          exact digitChar_lt_ten_ne_dash (n % 10) (Nat.mod_lt n (by omega))

theorem repr_ne_dash (n : Nat) : ∀ c ∈ (Nat.repr n).data, c ≠ '-' := by
  rw [repr_data]
  exact toDigitsCore_ne_dash (n + 1) n

theorem dash_split :
    ∀ (a c b d : List Char), (∀ x ∈ a, x ≠ '-') → (∀ x ∈ c, x ≠ '-') →
      a ++ '-' :: b = c ++ '-' :: d → a = c ∧ b = d := by
  intro a
  induction a with
  | nil =>
      intro c b d _ hc h
      cases c with
      | nil => simpa using h
      | cons y ys =>
          simp only [List.nil_append, List.cons_append, List.cons.injEq] at h
          exact absurd h.1.symm (hc y (by simp))
  | cons x xs ih =>
      intro c b d ha hc h
      cases c with
      | nil =>
          simp only [List.cons_append, List.nil_append, List.cons.injEq] at h
          exact absurd h.1 (ha x (by simp))
      | cons y ys =>
          simp only [List.cons_append, List.cons.injEq] at h
          obtain ⟨hxy, hrest⟩ := h
          obtain ⟨h1, h2⟩ := ih ys b d (fun z hz => ha z (by simp [hz]))
            (fun z hz => hc z (by simp [hz])) hrest
          exact ⟨by rw [hxy, h1], h2⟩

namespace RAGService

/-- The id assigned at insertion time to the document at position `idx` of
one `addDocuments` call, where `now` is the millisecond timestamp the call
sampled (`doc-<Date.now()>-<idx>`). -/
def mkDocId (now idx : Nat) : String :=
  "doc-" ++ Nat.repr now ++ "-" ++ Nat.repr idx

/-- The ids of one `addDocuments` call
(`documents.map((_, idx) => doc-Date.now()-idx)`). -/
def mkDocIds (now : Nat) (documents : List String) : List String :=
  (List.range documents.length).map (mkDocId now)

end RAGService

theorem mkDocId_inj {t1 i1 t2 i2 : Nat}
    (h : RAGService.mkDocId t1 i1 = RAGService.mkDocId t2 i2) :
    t1 = t2 ∧ i1 = i2 := by
  have hd := congrArg String.data h
  simp only [RAGService.mkDocId, String.data_append] at hd
  simp only [List.append_assoc, List.cons_append, List.nil_append,
    List.singleton_append, List.cons.injEq, true_and] at hd
  obtain ⟨ht, hi⟩ := dash_split (Nat.repr t1).data (Nat.repr t2).data
    (Nat.repr i1).data (Nat.repr i2).data (repr_ne_dash t1) (repr_ne_dash t2) hd
  exact ⟨nat_repr_inj (String.ext ht), nat_repr_inj (String.ext hi)⟩

/-- C8 counterexample: two `addDocuments` calls that sample the same
millisecond timestamp (here both `Date.now() = 0`) assign the *same* id
`doc-0-0` to their first documents, so the combined stored ids are not
pairwise distinct even though the claim requires distinct ids for any two
calls. -/
theorem duplicate_ids_same_timestamp :
    ¬ (RAGService.mkDocIds 0 ["alpha"] ++ RAGService.mkDocIds 0 ["alpha"]).Nodup := by
  decide

/-- C8 (amended): within one `addDocuments` call all assigned ids are
pairwise distinct, and the ids of two calls are disjoint whenever the two
calls sample distinct timestamps; only two calls within the same
millisecond (equal `Date.now()`) with overlapping indices can collide. -/
theorem mkDocId_uniqueness :
    (∀ t i j, i ≠ j → RAGService.mkDocId t i ≠ RAGService.mkDocId t j)
    ∧ (∀ t1 t2 docs1 docs2, t1 ≠ t2 →
        ∀ id1 ∈ RAGService.mkDocIds t1 docs1,
          ∀ id2 ∈ RAGService.mkDocIds t2 docs2, id1 ≠ id2)
    ∧ (∀ t docs, (RAGService.mkDocIds t docs).Nodup) := by
  refine ⟨?_, ?_, ?_⟩
  · intro t i j hij h
    exact hij (mkDocId_inj h).2
  · intro t1 t2 docs1 docs2 ht id1 h1 id2 h2 h
    obtain ⟨i, _, hi⟩ := List.mem_map.1 h1
    obtain ⟨j, _, hj⟩ := List.mem_map.1 h2
    rw [← hi, ← hj] at h
    exact ht (mkDocId_inj h).1
  · intro t docs
    refine List.Nodup.map_on ?_ (List.nodup_range _)
    intro i _ j _ h
    exact (mkDocId_inj h).2

/-- C8 amended-claim witness: within one call, positions 0 and 1 receive
distinct ids. -/
theorem mkDocId_uniqueness_witness :
    RAGService.mkDocId 5 0 ≠ RAGService.mkDocId 5 1 :=
  mkDocId_uniqueness.1 5 0 1 (by decide)

/-! ### Web search client (`web-search.ts`)

`WebSearchService.search` first consults a time-boxed cache, then issues an
outbound request.  Each attempt's network outcome is modelled by a function
from the attempt's retry counter to a `FetchOutcome`.  The recursion mirrors
the source: HTTP 429 retries while `retryCount < 2`, a timeout retries while
`retryCount < 1`, all other failures throw. -/

namespace WebSearchService

structure WebSearchSource where
  title : String
  url : String
  content : String
  score : Option ℚ
deriving DecidableEq, Repr

structure WebSearchResult where
  content : String
  sources : List WebSearchSource
  answer : Option String
deriving DecidableEq, Repr

structure WebSearchConfig where
  apiKey : String
  maxResults : Nat
  timeout : Nat
  cacheDuration : Nat
deriving DecidableEq, Repr

/-- The constructor: throws when the api key is empty (falsy). -/
def make (config : WebSearchConfig) : Except String WebSearchConfig :=
  if config.apiKey = "" then
    Except.error "Tavily API key is required for web search"
  else Except.ok config

/-- `getCacheKey`: `query.toLowerCase().trim()`, as a character list
(trim modelled on ASCII whitespace). -/
def getCacheKey (query : String) : List Char :=
  ((((query.data.map Char.toLower).dropWhile Char.isWhitespace).reverse.dropWhile
    Char.isWhitespace).reverse)

structure SearchCacheEntry where
  query : List Char
  result : WebSearchResult
  timestamp : Nat
deriving DecidableEq, Repr

/-- The in-memory cache map; insertion shadows older entries for the same
key, matching `Map.set`. -/
abbrev SearchCache := List (List Char × SearchCacheEntry)

def lookupCache (cache : SearchCache) (key : List Char) :
    Option SearchCacheEntry :=
  (cache.find? (fun p => p.1 == key)).map Prod.snd

/-- `getCachedResult`: a hit only when the entry is younger than the
configured cache duration. -/
def getCachedResult (config : WebSearchConfig) (cache : SearchCache)
    (now : Nat) (query : String) : Option WebSearchResult :=
  match lookupCache cache (getCacheKey query) with
  | some e => if now - e.timestamp < config.cacheDuration then some e.result
      else none
  | none => none

/-- `setCachedResult`: store the result under the normalized key with the
current timestamp. -/
def setCachedResult (cache : SearchCache) (now : Nat) (query : String)
    (result : WebSearchResult) : SearchCache :=
  (getCacheKey query,
    { query := getCacheKey query, result := result, timestamp := now }) :: cache

/-- Outcome of one outbound request to the search API. -/
inductive FetchOutcome
  | success (result : WebSearchResult)
  | rateLimited (statusText : String) (body : String)
  | httpError (code : Nat) (statusText : String) (body : String)
  | badJson
  | timedOut
deriving Repr

/-- Result of running `search`: how many outbound attempts were made, the
cache afterwards, and the settled outcome. -/
structure SearchRun where
  attempts : Nat
  cache : SearchCache
  result : Except String WebSearchResult
deriving Repr

/-- Embedding of `WebSearchService.search(query, retryCount)`: the outcome
of the `n`-th outbound attempt is `outcomes n` (every reachable recursive
call has a distinct, incremented retry counter, which indexes the
attempts). -/
def search (config : WebSearchConfig) (outcomes : Nat → FetchOutcome)
    (cache : SearchCache) (now : Nat) (query : String) (retryCount : Nat) :
    SearchRun :=
  match getCachedResult config cache now query with
  | some r => { attempts := 0, cache := cache, result := Except.ok r }
  | none =>
    match outcomes retryCount with
    | FetchOutcome.success r =>
        { attempts := 1, cache := setCachedResult cache now query r,
          result := Except.ok r }
    | FetchOutcome.rateLimited statusText body =>
        if h : retryCount < 2 then
          let rest := search config outcomes cache now query (retryCount + 1)
          { attempts := rest.attempts + 1, cache := rest.cache,
            result := rest.result }
        else
          { attempts := 1, cache := cache,
            result := Except.error
              ("Web search failed: 429 " ++ statusText ++ ". " ++ body) }
    | FetchOutcome.timedOut =>
        if h : retryCount < 1 then
          let rest := search config outcomes cache now query (retryCount + 1)
          { attempts := rest.attempts + 1, cache := rest.cache,
            result := rest.result }
        else
          { attempts := 1, cache := cache,
            result := Except.error "Web search timed out. Please try again." }
    | FetchOutcome.httpError code statusText body =>
        { attempts := 1, cache := cache,
          result := Except.error
            ("Web search failed: " ++ Nat.repr code ++ " " ++ statusText ++
              ". " ++ body) }
    | FetchOutcome.badJson =>
        { attempts := 1, cache := cache,
          result := Except.error "No results from web search" }
termination_by 2 - retryCount
decreasing_by
  all_goals omega

end WebSearchService

theorem web_search_attempts_le (config : WebSearchService.WebSearchConfig)
    (outcomes : Nat → WebSearchService.FetchOutcome)
    (cache : WebSearchService.SearchCache) (now : Nat) (q : String) :
    ∀ k retryCount, 2 - retryCount ≤ k →
      (WebSearchService.search config outcomes cache now q retryCount).attempts
        ≤ 1 + (2 - retryCount) := by
  intro k
  induction k with
  | zero =>
      intro rc hrc
      unfold WebSearchService.search
      cases hc : WebSearchService.getCachedResult config cache now q with
      | some r => simp
      | none =>
          cases ho : outcomes rc with
          | success r => simp
          | rateLimited s b =>
              have h2 : ¬ rc < 2 := by omega
              simp [h2]
          | timedOut =>
              have h1 : ¬ rc < 1 := by omega
              simp [h1]
          | httpError c st bd => simp
          | badJson => simp
  | succ k ih =>
      intro rc hrc
      unfold WebSearchService.search
      cases hc : WebSearchService.getCachedResult config cache now q with
      | some r => simp
      | none =>
          cases ho : outcomes rc with
          | success r => simp
          | rateLimited s b =>
              by_cases h2 : rc < 2
              · have hrec := ih (rc + 1) (by omega)
                simp only [dif_pos h2]
                omega
              · simp [h2]
          | timedOut =>
              by_cases h1 : rc < 1
              · have hrec := ih (rc + 1) (by omega)
                simp only [dif_pos h1]
                omega
              · simp [h1]
          | httpError c st bd => simp
          | badJson => simp

/-- C4: starting from a cold cache, web search issues at most 3 outbound
attempts whatever the API answers; and when the first two attempts return
HTTP 429 and the third succeeds, it returns the successful result, caches
it, and has made exactly 3 attempts — the outcomes of any later attempt
indices are universally quantified and unused, so a fourth attempt is never
issued. -/
theorem web_search_retry_ceiling (config : WebSearchService.WebSearchConfig)
    (outcomes : Nat → WebSearchService.FetchOutcome) (now : Nat) (q : String) :
    ((WebSearchService.search config outcomes [] now q 0).attempts ≤ 3)
    ∧ (∀ s0 b0 s1 b1 r,
        outcomes 0 = WebSearchService.FetchOutcome.rateLimited s0 b0 →
        outcomes 1 = WebSearchService.FetchOutcome.rateLimited s1 b1 →
        outcomes 2 = WebSearchService.FetchOutcome.success r →
        WebSearchService.search config outcomes [] now q 0 =
          { attempts := 3,
            cache := WebSearchService.setCachedResult [] now q r,
            result := Except.ok r }) := by
  constructor
  · simpa using web_search_attempts_le config outcomes [] now q 2 0 (by omega)
  · intro s0 b0 s1 b1 r h0 h1 h2
    have hnc : WebSearchService.getCachedResult config [] now q = none := rfl
    have e2 : WebSearchService.search config outcomes [] now q 2 =
        { attempts := 1, cache := WebSearchService.setCachedResult [] now q r,
          result := Except.ok r } := by
      unfold WebSearchService.search
      simp [hnc, h2]
    have e1 : WebSearchService.search config outcomes [] now q 1 =
        { attempts := 2, cache := WebSearchService.setCachedResult [] now q r,
          result := Except.ok r } := by
      unfold WebSearchService.search
      simp [hnc, h1, e2]
    unfold WebSearchService.search
    simp [hnc, h0, e1]

def c4Result : WebSearchService.WebSearchResult :=
  { content := "ok", sources := [], answer := none }

def c4Outcomes : Nat → WebSearchService.FetchOutcome := fun n =>
  match n with
  | 0 => WebSearchService.FetchOutcome.rateLimited "Too Many Requests" ""
  | 1 => WebSearchService.FetchOutcome.rateLimited "Too Many Requests" ""
  | _ => WebSearchService.FetchOutcome.success c4Result

/-- C4 witness: a concrete run — 429, 429, success — returns the cached
successful result with exactly 3 attempts. -/
theorem web_search_retry_ceiling_witness :
    WebSearchService.search
        { apiKey := "k", maxResults := 5, timeout := 20000,
          cacheDuration := 300000 } c4Outcomes [] 0 "q" 0 =
      { attempts := 3,
        cache := WebSearchService.setCachedResult [] 0 "q" c4Result,
        result := Except.ok c4Result } :=
  (web_search_retry_ceiling _ c4Outcomes 0 "q").2 "Too Many Requests" ""
    "Too Many Requests" "" c4Result rfl rfl rfl

/-! ### The answer pipeline (agent service)

`AIAgent.answer` is an async pipeline invoking the (possibly throwing)
progress callback, the two retrieval backends and final generation.  It is
embedded in a small state-passing type `EvE`: the state is the list of
progress events that were actually delivered, and it survives a thrown
error (the stream route keeps already-enqueued frames when the pipeline
rejects).  The two concurrent `Promise.allSettled` branches of `Both` mode
are modelled sequentially (local task then web task); each settles
independently via `settle`, which captures a rejection instead of
propagating it. -/

abbrev ProgressEvent := String × List String

def EvE (α : Type) : Type :=
  List ProgressEvent → List ProgressEvent × Except String α

def pureE {α : Type} (a : α) : EvE α := fun evs => (evs, Except.ok a)

def bindE {α β : Type} (m : EvE α) (f : α → EvE β) : EvE β := fun evs =>
  match m evs with
  | (evs2, Except.ok a) => f a evs2
  | (evs2, Except.error e) => (evs2, Except.error e)

def liftE {α : Type} (x : Except String α) : EvE α := fun evs => (evs, x)

/-- One `progressCallback?.(status, details)` invocation: on success the
event is delivered and recorded, a thrown callback error propagates. -/
def callCb (cb : String → List String → Except String Unit)
    (status : String) (details : List String) : EvE Unit := fun evs =>
  match cb status details with
  | Except.ok _ => (evs ++ [(status, details)], Except.ok ())
  | Except.error e => (evs, Except.error e)

/-- `Promise.allSettled` component: run the task and capture its outcome
without propagating a rejection. -/
def settle {α : Type} (m : EvE α) : EvE (Except String α) := fun evs =>
  match m evs with
  | (evs2, Except.ok a) => (evs2, Except.ok (Except.ok a))
  | (evs2, Except.error e) => (evs2, Except.ok (Except.error e))

namespace AIAgent

structure AgentConfig where
  decisionModel : String
  generateModel : String
deriving DecidableEq, Repr

inductive SourceType
  | rag
  | web
deriving DecidableEq, Repr

structure AgentSource where
  type : SourceType
  title : Option String
  url : Option String
  content : String
  score : Option ℚ
deriving DecidableEq, Repr

structure AgentAnswer where
  answer : String
  tool : Tool
  ragResult : Option RAGService.RAGSearchResult
  webResult : Option WebSearchService.WebSearchResult
  sources : List AgentSource
deriving DecidableEq, Repr

def ragToAgentSource (s : RAGService.RAGSource) : AgentSource :=
  { type := SourceType.rag, title := none, url := none,
    content := s.document, score := s.score }

def webToAgentSource (s : WebSearchService.WebSearchSource) : AgentSource :=
  { type := SourceType.web, title := some s.title, url := some s.url,
    content := s.content, score := s.score }

def settledRagSources :
    Except String RAGService.RAGSearchResult → List AgentSource
  | Except.ok r => r.sources.map ragToAgentSource
  | Except.error _ => []

def settledWebSources :
    Except String WebSearchService.WebSearchResult → List AgentSource
  | Except.ok w => w.sources.map webToAgentSource
  | Except.error _ => []

/-- The merged `Both`-mode context: a labeled local section and a labeled
web section, an explicit failure notice replacing the content of a backend
that rejected. -/
def bothContext (ragRes : Except String RAGService.RAGSearchResult)
    (webRes : Except String WebSearchService.WebSearchResult) : String :=
  (("**Local Knowledge Base:**" ++ "\n") ++
    (match ragRes with
     | Except.ok r => r.content
     | Except.error _ => "RAG search failed.")) ++
  (("\n\n" ++ "**Web Search Results:**" ++ "\n") ++
    (match webRes with
     | Except.ok w => w.content
     | Except.error _ => "Web search failed."))

/-- The final generation prompt assembled by `answer`. -/
def answerPrompt (contextSource context query : String) : String :=
  "You are an intelligent, helpful AI assistant. Your task is to provide accurate, comprehensive answers based on the provided context.\n\nCONTEXT SOURCE: "
    ++ contextSource ++
    "\n\nINSTRUCTIONS:\n1. Answer the user's question directly and thoroughly\n2. Use ONLY information from the provided context\n3. If context is insufficient, acknowledge this honestly\n4. Structure your response with clear paragraphs\n5. Be concise but complete\n6. Cite sources when they're provided in the context\n7. If multiple sources conflict, mention the discrepancy\n8. Maintain a professional, friendly tone\n\nCONTEXT:\n"
    ++ context ++ "\n\nUSER QUESTION:\n" ++ query ++
    "\n\nCOMPREHENSIVE ANSWER:"

/-- Case-insensitive literal-pattern drop, for the anchored
`^(COMPREHENSIVE ANSWER:|RESPONSE:|ANSWER:)/i` replacement. -/
def dropCaseless : List Char → List Char → Option (List Char)
  | [], l => some l
  | _ :: _, [] => none
  | p :: ps, c :: cs =>
      if p.toLower == c.toLower then dropCaseless ps cs else none

def stripLabel (s : String) : String :=
  match dropCaseless "COMPREHENSIVE ANSWER:".data s.data with
  | some rest => String.mk rest
  | none =>
      match dropCaseless "RESPONSE:".data s.data with
      | some rest => String.mk rest
      | none =>
          match dropCaseless "ANSWER:".data s.data with
          | some rest => String.mk rest
          | none => s

/-- `postProcessAnswer`: strip a leading scaffolding label, then trim. -/
def postProcessAnswer (answer : String) (_tool : Tool) : String :=
  (stripLabel answer).trim

/-- The local branch of the `Both`-mode `Promise.allSettled` pair. -/
def ragTask (cb : String → List String → Except String Unit)
    (ragS : Except String RAGService.RAGSearchResult) :
    EvE RAGService.RAGSearchResult :=
  bindE (callCb cb "Searching local knowledge base"
      ["Converting query to embeddings", "Querying vector database"]) (fun _ =>
  bindE (liftE ragS) (fun r =>
  bindE (callCb cb "Local search complete"
      ["Retrieved " ++ toString r.sources.length ++ " relevant documents"])
    (fun _ =>
  pureE r)))

/-- The web branch of the `Both`-mode `Promise.allSettled` pair. -/
def webTask (cb : String → List String → Except String Unit)
    (webS : Except String WebSearchService.WebSearchResult) :
    EvE WebSearchService.WebSearchResult :=
  bindE (callCb cb "Searching the web"
      ["Initializing Tavily search", "Fetching latest information"]) (fun _ =>
  bindE (liftE webS) (fun w =>
  bindE (callCb cb "Web search complete"
      ["Retrieved " ++ toString w.sources.length ++ " web sources"]) (fun _ =>
  pureE w)))

/-- Embedding of `AIAgent.answer` after the tool decision resolved to
`tool`; `ragS` and `webS` are the settled outcomes the two backend searches
would produce, `gen (model) (prompt) (temperature)` the generation client,
`cb` the caller's progress callback. -/
def answerM (cfg : AgentConfig)
    (gen : String → String → ℚ → Except String String)
    (ragS : Except String RAGService.RAGSearchResult)
    (webS : Except String WebSearchService.WebSearchResult)
    (cb : String → List String → Except String Unit)
    (tool : Tool) (query : String) : EvE AgentAnswer :=
  match tool with
  | Tool.Both =>
      bindE (callCb cb "Fetching from multiple sources"
          ["Searching local knowledge base", "Searching the web"]) (fun _ =>
      bindE (settle (ragTask cb ragS)) (fun ragRes =>
      bindE (settle (webTask cb webS)) (fun webRes =>
      bindE (callCb cb "Generating AI response"
          ["Analyzing context from both local knowledge and web search",
           "Crafting comprehensive answer"]) (fun _ =>
      bindE (liftE (gen cfg.generateModel
          (answerPrompt "both local knowledge and web search"
            (bothContext ragRes webRes) query) (7 / 10))) (fun raw =>
      pureE { answer := postProcessAnswer raw Tool.Both, tool := Tool.Both,
              ragResult := ragRes.toOption, webResult := webRes.toOption,
              sources := settledRagSources ragRes ++
                settledWebSources webRes })))))
  | Tool.RAG =>
      bindE (callCb cb "Searching local knowledge base"
          ["Converting query to embeddings", "Querying vector database"])
        (fun _ =>
      bindE (liftE ragS) (fun r =>
      bindE (callCb cb "Local search complete"
          ["Retrieved " ++ toString r.sources.length ++ " relevant documents",
           "Preparing context for AI"]) (fun _ =>
      bindE (callCb cb "Generating AI response"
          ["Analyzing context from local knowledge base",
           "Crafting comprehensive answer"]) (fun _ =>
      bindE (liftE (gen cfg.generateModel
          (answerPrompt "local knowledge base" r.content query) (7 / 10)))
        (fun raw =>
      pureE { answer := postProcessAnswer raw Tool.RAG, tool := Tool.RAG,
              ragResult := some r, webResult := none,
              sources := r.sources.map ragToAgentSource })))))
  | Tool.WebSearch =>
      bindE (callCb cb "Searching the web"
          ["Initializing web search", "Querying Tavily API"]) (fun _ =>
      bindE (liftE webS) (fun w =>
      bindE (callCb cb "Web search complete"
          ["Retrieved " ++ toString w.sources.length ++ " sources from the web",
           "Extracting relevant information"]) (fun _ =>
      bindE (callCb cb "Generating AI response"
          ["Analyzing context from web search", "Crafting comprehensive answer"])
        (fun _ =>
      bindE (liftE (gen cfg.generateModel
          (answerPrompt "web search" w.content query) (7 / 10))) (fun raw =>
      pureE { answer := postProcessAnswer raw Tool.WebSearch,
              tool := Tool.WebSearch,
              ragResult := none, webResult := some w,
              sources := w.sources.map webToAgentSource })))))

/-- Run `answer` from an empty event log: delivered progress events plus
the settled outcome. -/
def answer (cfg : AgentConfig)
    (gen : String → String → ℚ → Except String String)
    (ragS : Except String RAGService.RAGSearchResult)
    (webS : Except String WebSearchService.WebSearchResult)
    (cb : String → List String → Except String Unit)
    (tool : Tool) (query : String) :
    List ProgressEvent × Except String AgentAnswer :=
  answerM cfg gen ragS webS cb tool query []

end AIAgent

theorem containsSeq_append_right (a n : List Char) :
    containsSeq n (a ++ n) = true := by
  have h := containsSeq_append a [] n
  simpa using h

theorem settle_run {α : Type} (m : EvE α) (evs : List ProgressEvent) :
    ∃ x evs2, settle m evs = (evs2, Except.ok x) := by
  unfold settle
  rcases hm : m evs with ⟨evs2, r⟩
  cases r with
  | ok a => exact ⟨Except.ok a, evs2, by simp⟩
  | error e => exact ⟨Except.error e, evs2, by simp⟩

/-- C1: in `Both` mode, when exactly one backend rejects and the other
fulfills (and generation itself succeeds), `answer` still returns a
non-error `AgentAnswer`; the merged context contains the fulfilled
backend's content together with the explicit failure notice for the failed
backend; and the sources list is exactly the fulfilled backend's sources,
all tagged with that backend's type. -/
theorem both_mode_partial_failure (cfg : AIAgent.AgentConfig)
    (gen : String → String → ℚ → Except String String) (q : String)
    (hGen : ∀ m p t, ∃ s, gen m p t = Except.ok s) :
    (∀ e (w : WebSearchService.WebSearchResult),
      ∃ a, (AIAgent.answer cfg gen (Except.error e) (Except.ok w)
          (fun _ _ => Except.ok ()) Tool.Both q).2 = Except.ok a ∧
        a.sources = w.sources.map AIAgent.webToAgentSource ∧
        (∀ s ∈ a.sources, s.type = AIAgent.SourceType.web) ∧
        strContains (AIAgent.bothContext (Except.error e) (Except.ok w))
          w.content = true ∧
        strContains (AIAgent.bothContext (Except.error e) (Except.ok w))
          "RAG search failed." = true)
    ∧ (∀ e2 (r : RAGService.RAGSearchResult),
      ∃ a, (AIAgent.answer cfg gen (Except.ok r) (Except.error e2)
          (fun _ _ => Except.ok ()) Tool.Both q).2 = Except.ok a ∧
        a.sources = r.sources.map AIAgent.ragToAgentSource ∧
        (∀ s ∈ a.sources, s.type = AIAgent.SourceType.rag) ∧
        strContains (AIAgent.bothContext (Except.ok r) (Except.error e2))
          r.content = true ∧
        strContains (AIAgent.bothContext (Except.ok r) (Except.error e2))
          "Web search failed." = true) := by
  constructor
  · intro e w
    obtain ⟨s, hs⟩ := hGen cfg.generateModel
      (AIAgent.answerPrompt "both local knowledge and web search"
        (AIAgent.bothContext (Except.error e) (Except.ok w)) q) (7 / 10)
    refine ⟨{ answer := AIAgent.postProcessAnswer s Tool.Both,
              tool := Tool.Both, ragResult := none, webResult := some w,
              sources := w.sources.map AIAgent.webToAgentSource },
      ?_, rfl, ?_, ?_, ?_⟩
    · simp [AIAgent.answer, AIAgent.answerM, bindE, callCb, settle,
        AIAgent.ragTask, AIAgent.webTask, liftE, pureE, hs,
        AIAgent.settledRagSources, AIAgent.settledWebSources, Except.toOption]
    · intro srcEntry hmem
      obtain ⟨x, _, hx⟩ := List.mem_map.1 hmem
      rw [← hx]
      rfl
    · unfold strContains AIAgent.bothContext
      simp only [String.data_append]
      rw [← List.append_assoc]
      exact containsSeq_append_right _ _
    · unfold strContains AIAgent.bothContext
      simp only [String.data_append]
      exact containsSeq_append _ _ _
  · intro e2 r
    obtain ⟨s, hs⟩ := hGen cfg.generateModel
      (AIAgent.answerPrompt "both local knowledge and web search"
        (AIAgent.bothContext (Except.ok r) (Except.error e2)) q) (7 / 10)
    refine ⟨{ answer := AIAgent.postProcessAnswer s Tool.Both,
              tool := Tool.Both, ragResult := some r, webResult := none,
              sources := r.sources.map AIAgent.ragToAgentSource },
      ?_, rfl, ?_, ?_, ?_⟩
    · simp [AIAgent.answer, AIAgent.answerM, bindE, callCb, settle,
        AIAgent.ragTask, AIAgent.webTask, liftE, pureE, hs,
        AIAgent.settledRagSources, AIAgent.settledWebSources, Except.toOption]
    · intro srcEntry hmem
      obtain ⟨x, _, hx⟩ := List.mem_map.1 hmem
      rw [← hx]
      rfl
    · unfold strContains AIAgent.bothContext
      simp only [String.data_append]
      exact containsSeq_append _ _ _
    · unfold strContains AIAgent.bothContext
      simp only [String.data_append]
      rw [← List.append_assoc]
      exact containsSeq_append_right _ _

def c1Web : WebSearchService.WebSearchResult :=
  { content := "web stuff", sources := [], answer := none }

/-- C1 witness: a concrete run with a rejected local search and a fulfilled
web search, under a generation client that always succeeds. -/
theorem both_mode_partial_failure_witness :
    ∃ a, (AIAgent.answer { decisionModel := "m", generateModel := "m" }
        (fun _ _ _ => Except.ok "generated") (Except.error "boom")
        (Except.ok c1Web) (fun _ _ => Except.ok ()) Tool.Both "q").2 =
          Except.ok a ∧
      a.sources = c1Web.sources.map AIAgent.webToAgentSource ∧
      (∀ s ∈ a.sources, s.type = AIAgent.SourceType.web) ∧
      strContains (AIAgent.bothContext (Except.error "boom") (Except.ok c1Web))
        c1Web.content = true ∧
      strContains (AIAgent.bothContext (Except.error "boom") (Except.ok c1Web))
        "RAG search failed." = true :=
  (both_mode_partial_failure { decisionModel := "m", generateModel := "m" }
    (fun _ _ _ => Except.ok "generated") "q"
    (fun _ _ _ => ⟨"generated", rfl⟩)).1 "boom" c1Web

def c6Rag : RAGService.RAGSearchResult :=
  { content := "ctx", sources := [] }

def c6Web : WebSearchService.WebSearchResult :=
  { content := "web", sources := [], answer := none }

/-- C6 counterexample: a progress callback that throws on every invocation
aborts `answer` even though classification, both backends and generation
all succeed — the callback's exception is propagated, so `answer` is not
insensitive to the callback's own failure. -/
theorem callback_throw_aborts_answer :
    (AIAgent.answer { decisionModel := "m", generateModel := "m" }
        (fun _ _ _ => Except.ok "generated") (Except.ok c6Rag)
        (Except.ok c6Web) (fun _ _ => Except.error "callback failed")
        Tool.Both "q").2 = Except.error "callback failed" := rfl

/-- C6 (amended): `answer` is insensitive to callback failures raised at
the phase transitions *inside* the `Both`-mode backend tasks (those are
settled like backend failures), but only when the callback succeeds on the
two directly-invoked transitions ("Fetching from multiple sources" and
"Generating AI response"); a callback that throws on a direct invocation
aborts `answer` with the callback's own error. -/
theorem callback_partial_insensitivity (cfg : AIAgent.AgentConfig)
    (gen : String → String → ℚ → Except String String)
    (ragS : Except String RAGService.RAGSearchResult)
    (webS : Except String WebSearchService.WebSearchResult)
    (cb : String → List String → Except String Unit) (q : String)
    (h1 : cb "Fetching from multiple sources"
      ["Searching local knowledge base", "Searching the web"] = Except.ok ())
    (h2 : cb "Generating AI response"
      ["Analyzing context from both local knowledge and web search",
       "Crafting comprehensive answer"] = Except.ok ())
    (hGen : ∀ m p t, ∃ s, gen m p t = Except.ok s) :
    ∃ a, (AIAgent.answer cfg gen ragS webS cb Tool.Both q).2 = Except.ok a := by
  obtain ⟨ragRes, evs1, hra⟩ := settle_run (AIAgent.ragTask cb ragS)
    [("Fetching from multiple sources",
      ["Searching local knowledge base", "Searching the web"])]
  obtain ⟨webRes, evs2, hwb⟩ := settle_run (AIAgent.webTask cb webS) evs1
  obtain ⟨s, hs⟩ := hGen cfg.generateModel
    (AIAgent.answerPrompt "both local knowledge and web search"
      (AIAgent.bothContext ragRes webRes) q) (7 / 10)
  refine ⟨{ answer := AIAgent.postProcessAnswer s Tool.Both,
            tool := Tool.Both, ragResult := ragRes.toOption,
            webResult := webRes.toOption,
            sources := AIAgent.settledRagSources ragRes ++
              AIAgent.settledWebSources webRes }, ?_⟩
  simp [AIAgent.answer, AIAgent.answerM, bindE, callCb, h1, h2, hra, hwb, hs,
    liftE, pureE]

def c6Callback : String → List String → Except String Unit :=
  fun status _ =>
    if status == "Fetching from multiple sources" ||
        status == "Generating AI response" then Except.ok ()
    else Except.error "callback exploded"

/-- C6 amended-claim witness: a callback that throws on every backend-task
phase transition (but not on the two direct ones) still lets `answer`
complete. -/
theorem callback_partial_insensitivity_witness :
    ∃ a, (AIAgent.answer { decisionModel := "m", generateModel := "m" }
        (fun _ _ _ => Except.ok "generated") (Except.ok c6Rag)
        (Except.ok c6Web) c6Callback Tool.Both "q").2 = Except.ok a :=
  callback_partial_insensitivity { decisionModel := "m", generateModel := "m" }
    (fun _ _ _ => Except.ok "generated") (Except.ok c6Rag) (Except.ok c6Web)
    c6Callback "q" rfl rfl (fun _ _ _ => ⟨"generated", rfl⟩)

/-! ### The streaming agent route (`app/api/agent/route.ts`, `POST`)

The streaming branch of the route emits SSE frames.  The route's own
progress callback only enqueues `progress` frames and never throws, so the
agent pipeline is run with the always-succeeding callback and its delivered
events become `progress` frames. -/

namespace AgentRoute

structure AgentRequestBody where
  query : String
  stream : Bool
  webSearchOnly : Bool
  model : Option String
deriving DecidableEq, Repr

inductive Frame
  | progress (status : String) (details : List String)
  | tool (t : Tool)
  | sources (sources : List AIAgent.AgentSource)
  | message (content : String)
  | done
  | error (msg : String)
deriving DecidableEq, Repr

inductive FrameKind
  | progress
  | tool
  | sources
  | message
  | done
  | error
deriving DecidableEq, Repr

def frameKind : Frame → FrameKind
  | Frame.progress _ _ => FrameKind.progress
  | Frame.tool _ => FrameKind.tool
  | Frame.sources _ => FrameKind.sources
  | Frame.message _ => FrameKind.message
  | Frame.done => FrameKind.done
  | Frame.error _ => FrameKind.error

/-- 3-character chunks (`chunkSize = 3`), last chunk possibly shorter. -/
def chunk3 : List Char → List (List Char)
  | [] => []
  | a :: b :: c :: rest => [a, b, c] :: chunk3 rest
  | l => [l]

/-- The `message` frames: the final answer re-chunked in 3-character
pieces for smoother display. -/
def messageFrames (answer : String) : List Frame :=
  (chunk3 answer.data).map (fun c => Frame.message (String.mk c))

/-- The string interpolation of a `Tool` value. -/
def toolName : Tool → String
  | Tool.RAG => "RAG"
  | Tool.WebSearch => "WebSearch"
  | Tool.Both => "Both"

/-- The JS call `agent.answer(body.query, progressCallback, generateModel)`
passes three arguments, but `answer` declares only two parameters, so the
third argument is dropped at the call boundary. -/
def answerCalledWithExtra (_extraModel : String) (cfg : AIAgent.AgentConfig)
    (gen : String → String → ℚ → Except String String)
    (ragS : Except String RAGService.RAGSearchResult)
    (webS : Except String WebSearchService.WebSearchResult)
    (cb : String → List String → Except String Unit)
    (tool : Tool) (query : String) :
    List ProgressEvent × Except String AIAgent.AgentAnswer :=
  AIAgent.answer cfg gen ragS webS cb tool query

/-- The streaming branch for `webSearchOnly = false`: analyze, classify,
emit the `tool` frame, run `answer` with the enqueueing callback, emit the
`sources` frame when sources are non-empty, then the re-chunked answer and
the terminal `done` frame; a rejection anywhere inside the try block yields
a terminal `error` frame after the already-enqueued frames. -/
def routeStreamMain (cfg : AIAgent.AgentConfig)
    (gen : String → String → ℚ → Except String String)
    (toolDecision : Except String Tool)
    (ragS : Except String RAGService.RAGSearchResult)
    (webS : Except String WebSearchService.WebSearchResult)
    (body : AgentRequestBody) : List Frame :=
  let generateModel := body.model.getD cfg.generateModel
  let pre := [Frame.progress "Analyzing your query"
    ["Understanding your question", "Selecting best search strategy"]]
  match toolDecision with
  | Except.error e => pre ++ [Frame.error e]
  | Except.ok tool =>
      let head := pre ++
        [Frame.tool tool,
         Frame.progress
           ("Using " ++
             (if tool = Tool.Both then "RAG + Web Search" else toolName tool))
           ["Preparing to fetch information"]]
      let res := answerCalledWithExtra generateModel cfg gen ragS webS
        (fun _ _ => Except.ok ()) tool body.query
      let evFrames := res.1.map (fun ev => Frame.progress ev.1 ev.2)
      match res.2 with
      | Except.error e => head ++ evFrames ++ [Frame.error e]
      | Except.ok result =>
          head ++ evFrames ++
          (if result.sources.isEmpty then []
           else [Frame.sources result.sources]) ++
          [Frame.progress "Generating response"
            ["Processing retrieved information",
             "Crafting comprehensive answer"]] ++
          messageFrames result.answer ++
          [Frame.done]

/-- The prompt of the `webSearchOnly` streaming branch. -/
def webOnlyPrompt (content query : String) : String :=
  "You are a helpful AI assistant. Provide a comprehensive answer based on the web search results below.\n\n**INSTRUCTIONS:**\n- Answer the user's question directly and thoroughly\n- Use ONLY information from the provided web search results\n- Structure your response with clear paragraphs\n- Be concise but complete\n- Use proper Markdown formatting (headings, lists, bold, etc.)\n- Maintain a professional, friendly tone\n\n**WEB SEARCH RESULTS:**\n"
    ++ content ++ "\n\n**USER QUESTION:**\n" ++ query ++ "\n\n**YOUR ANSWER:**"

/-- The `webSearchOnly` streaming branch; `genStream model prompt temp`
yields the streamed tokens plus the final outcome.  This is the one place
the route's `generateModel = body.model || configured model` is actually
consumed. -/
def routeStreamWebOnly (cfg : AIAgent.AgentConfig)
    (genStream : String → String → ℚ → List String × Except String Unit)
    (webS : Except String WebSearchService.WebSearchResult)
    (body : AgentRequestBody) : List Frame :=
  let generateModel := body.model.getD cfg.generateModel
  [Frame.tool Tool.WebSearch,
   Frame.progress "Searching the web"
     ["Initializing web search", "Querying Tavily API for latest results"]] ++
  match webS with
  | Except.error e => [Frame.error e]
  | Except.ok w =>
      [Frame.progress "Web search complete"
        ["Retrieved " ++ toString w.sources.length ++ " sources from the web",
         "Processing search results"],
       Frame.sources (w.sources.map AIAgent.webToAgentSource),
       Frame.progress "Generating AI response"
         ["Analyzing web search results", "Crafting comprehensive answer"],
       Frame.progress "Generating response"
         ["Analyzing search results", "Formulating comprehensive answer"]] ++
      (let run := genStream generateModel (webOnlyPrompt w.content body.query)
        (7 / 10)
       (run.1.map Frame.message) ++
       (match run.2 with
        | Except.ok _ => [Frame.done]
        | Except.error e => [Frame.error e]))

/-- The streaming `POST` body: dispatch on `webSearchOnly`. -/
def routeStreamPOST (cfg : AIAgent.AgentConfig)
    (gen : String → String → ℚ → Except String String)
    (genStream : String → String → ℚ → List String × Except String Unit)
    (toolDecision : Except String Tool)
    (ragS : Except String RAGService.RAGSearchResult)
    (webS : Except String WebSearchService.WebSearchResult)
    (body : AgentRequestBody) : List Frame :=
  if body.webSearchOnly then routeStreamWebOnly cfg genStream webS body
  else routeStreamMain cfg gen toolDecision ragS webS body

end AgentRoute

theorem frame_order_split (L1 L2 : List AgentRoute.Frame)
    (k k2 : AgentRoute.FrameKind)
    (h1 : ∀ f ∈ L1, AgentRoute.frameKind f ≠ k2)
    (h2 : ∀ f ∈ L2, AgentRoute.frameKind f ≠ k) :
    ∀ (i j : Nat) (f g : AgentRoute.Frame),
      (L1 ++ L2)[i]? = some f → AgentRoute.frameKind f = k →
      (L1 ++ L2)[j]? = some g → AgentRoute.frameKind g = k2 → i < j := by
  intro i j f g hi hf hj hg
  have hiL : i < L1.length := by
    by_contra hcon
    push_neg at hcon
    rw [List.getElem?_append_right hcon] at hi
    exact (h2 f (List.getElem?_mem hi)) hf
  have hjL : L1.length ≤ j := by
    by_contra hcon
    push_neg at hcon
    rw [List.getElem?_append_left hcon] at hj
    exact (h1 g (List.getElem?_mem hj)) hg
  omega

theorem frame_order_vacuous (L : List AgentRoute.Frame)
    (k k2 : AgentRoute.FrameKind)
    (h : ∀ f ∈ L, AgentRoute.frameKind f ≠ k2) :
    ∀ (i j : Nat) (f g : AgentRoute.Frame),
      L[i]? = some f → AgentRoute.frameKind f = k →
      L[j]? = some g → AgentRoute.frameKind g = k2 → i < j := by
  intro i j f g hi hf hj hg
  exact absurd hg (h g (List.getElem?_mem hj))

theorem kind_of_mem_evFrames (l : List ProgressEvent) :
    ∀ f ∈ l.map (fun ev => AgentRoute.Frame.progress ev.1 ev.2),
      AgentRoute.frameKind f = AgentRoute.FrameKind.progress := by
  intro f hf
  obtain ⟨ev, _, h⟩ := List.mem_map.1 hf
  rw [← h]
  rfl

theorem kind_of_mem_messageFrames (s : String) :
    ∀ f ∈ AgentRoute.messageFrames s,
      AgentRoute.frameKind f = AgentRoute.FrameKind.message := by
  intro f hf
  obtain ⟨c, _, h⟩ := List.mem_map.1 hf
  rw [← h]
  rfl

/-- C5: in a `Both`-mode streaming answer (webSearchOnly false), every
`tool` frame precedes every `sources` frame, every `sources` frame precedes
every `done` frame, and no `message` frame follows a `done` frame (all
`message` frames precede all `done` frames). -/
theorem streaming_frame_order (cfg : AIAgent.AgentConfig)
    (gen : String → String → ℚ → Except String String)
    (genStream : String → String → ℚ → List String × Except String Unit)
    (ragS : Except String RAGService.RAGSearchResult)
    (webS : Except String WebSearchService.WebSearchResult)
    (body : AgentRoute.AgentRequestBody)
    (hwso : body.webSearchOnly = false) :
    (∀ (i j : Nat) (f g : AgentRoute.Frame),
      (AgentRoute.routeStreamPOST cfg gen genStream (Except.ok Tool.Both)
        ragS webS body)[i]? = some f →
      AgentRoute.frameKind f = AgentRoute.FrameKind.tool →
      (AgentRoute.routeStreamPOST cfg gen genStream (Except.ok Tool.Both)
        ragS webS body)[j]? = some g →
      AgentRoute.frameKind g = AgentRoute.FrameKind.sources → i < j)
    ∧ (∀ (i j : Nat) (f g : AgentRoute.Frame),
      (AgentRoute.routeStreamPOST cfg gen genStream (Except.ok Tool.Both)
        ragS webS body)[i]? = some f →
      AgentRoute.frameKind f = AgentRoute.FrameKind.sources →
      (AgentRoute.routeStreamPOST cfg gen genStream (Except.ok Tool.Both)
        ragS webS body)[j]? = some g →
      AgentRoute.frameKind g = AgentRoute.FrameKind.done → i < j)
    ∧ (∀ (i j : Nat) (f g : AgentRoute.Frame),
      (AgentRoute.routeStreamPOST cfg gen genStream (Except.ok Tool.Both)
        ragS webS body)[i]? = some f →
      AgentRoute.frameKind f = AgentRoute.FrameKind.message →
      (AgentRoute.routeStreamPOST cfg gen genStream (Except.ok Tool.Both)
        ragS webS body)[j]? = some g →
      AgentRoute.frameKind g = AgentRoute.FrameKind.done → i < j) := by
  have hpost : AgentRoute.routeStreamPOST cfg gen genStream
      (Except.ok Tool.Both) ragS webS body =
      AgentRoute.routeStreamMain cfg gen (Except.ok Tool.Both) ragS webS
        body := by
    simp [AgentRoute.routeStreamPOST, hwso]
  rcases hres : AgentRoute.answerCalledWithExtra
      (body.model.getD cfg.generateModel) cfg gen ragS webS
      (fun _ _ => Except.ok ()) Tool.Both body.query with ⟨evts, r⟩
  cases r with
  | error e =>
      have hm : AgentRoute.routeStreamMain cfg gen (Except.ok Tool.Both)
          ragS webS body =
          [AgentRoute.Frame.progress "Analyzing your query"
             ["Understanding your question", "Selecting best search strategy"],
           AgentRoute.Frame.tool Tool.Both,
           AgentRoute.Frame.progress ("Using " ++ "RAG + Web Search")
             ["Preparing to fetch information"]] ++
          (evts.map (fun ev => AgentRoute.Frame.progress ev.1 ev.2) ++
            [AgentRoute.Frame.error e]) := by
        simp [AgentRoute.routeStreamMain, hres]
      have hnosrc : ∀ f ∈ AgentRoute.routeStreamMain cfg gen
          (Except.ok Tool.Both) ragS webS body,
          AgentRoute.frameKind f ≠ AgentRoute.FrameKind.sources ∧
          AgentRoute.frameKind f ≠ AgentRoute.FrameKind.done := by
        rw [hm]
        intro f hf
        rcases List.mem_append.1 hf with hf | hf
        · simp only [List.mem_cons, List.not_mem_nil, or_false] at hf
          rcases hf with rfl | rfl | rfl <;>
            exact ⟨by simp [AgentRoute.frameKind],
              by simp [AgentRoute.frameKind]⟩
        · rcases List.mem_append.1 hf with hf | hf
          · rw [kind_of_mem_evFrames evts f hf]
            exact ⟨by simp, by simp⟩
          · simp only [List.mem_singleton] at hf
            subst hf
            exact ⟨by simp [AgentRoute.frameKind],
              by simp [AgentRoute.frameKind]⟩
      refine ⟨?_, ?_, ?_⟩ <;> simp only [hpost]
      · exact frame_order_vacuous _ _ _ (fun f hf => (hnosrc f hf).1)
      · exact frame_order_vacuous _ _ _ (fun f hf => (hnosrc f hf).2)
      · exact frame_order_vacuous _ _ _ (fun f hf => (hnosrc f hf).2)
  | ok result =>
      have hmA : AgentRoute.routeStreamMain cfg gen (Except.ok Tool.Both)
          ragS webS body =
          [AgentRoute.Frame.progress "Analyzing your query"
             ["Understanding your question", "Selecting best search strategy"],
           AgentRoute.Frame.tool Tool.Both,
           AgentRoute.Frame.progress ("Using " ++ "RAG + Web Search")
             ["Preparing to fetch information"]] ++
          (evts.map (fun ev => AgentRoute.Frame.progress ev.1 ev.2) ++
           ((if result.sources.isEmpty then []
             else [AgentRoute.Frame.sources result.sources]) ++
            ([AgentRoute.Frame.progress "Generating response"
                ["Processing retrieved information",
                 "Crafting comprehensive answer"]] ++
             (AgentRoute.messageFrames result.answer ++
              [AgentRoute.Frame.done])))) := by
        simp [AgentRoute.routeStreamMain, hres]
      have hmB : AgentRoute.routeStreamMain cfg gen (Except.ok Tool.Both)
          ragS webS body =
          ([AgentRoute.Frame.progress "Analyzing your query"
              ["Understanding your question", "Selecting best search strategy"],
            AgentRoute.Frame.tool Tool.Both,
            AgentRoute.Frame.progress ("Using " ++ "RAG + Web Search")
              ["Preparing to fetch information"]] ++
           (evts.map (fun ev => AgentRoute.Frame.progress ev.1 ev.2) ++
            ((if result.sources.isEmpty then []
              else [AgentRoute.Frame.sources result.sources]) ++
             ([AgentRoute.Frame.progress "Generating response"
                 ["Processing retrieved information",
                  "Crafting comprehensive answer"]] ++
              AgentRoute.messageFrames result.answer)))) ++
          [AgentRoute.Frame.done] := by
        simp [AgentRoute.routeStreamMain, hres]
      have hTail : ∀ f ∈
          (evts.map (fun ev => AgentRoute.Frame.progress ev.1 ev.2) ++
           ((if result.sources.isEmpty then []
             else [AgentRoute.Frame.sources result.sources]) ++
            ([AgentRoute.Frame.progress "Generating response"
                ["Processing retrieved information",
                 "Crafting comprehensive answer"]] ++
             (AgentRoute.messageFrames result.answer ++
              [AgentRoute.Frame.done])))),
          AgentRoute.frameKind f ≠ AgentRoute.FrameKind.tool := by
        intro f hf
        rcases List.mem_append.1 hf with hf | hf
        · rw [kind_of_mem_evFrames evts f hf]
          simp
        · rcases List.mem_append.1 hf with hf | hf
          · revert hf
            split
            · intro hf
              simp at hf
            · intro hf
              simp only [List.mem_singleton] at hf
              subst hf
              simp [AgentRoute.frameKind]
          · rcases List.mem_append.1 hf with hf | hf
            · simp only [List.mem_singleton] at hf
              subst hf
              simp [AgentRoute.frameKind]
            · rcases List.mem_append.1 hf with hf | hf
              · rw [kind_of_mem_messageFrames result.answer f hf]
                simp
              · simp only [List.mem_singleton] at hf
                subst hf
                simp [AgentRoute.frameKind]
      have hNoDone : ∀ f ∈
          ([AgentRoute.Frame.progress "Analyzing your query"
              ["Understanding your question", "Selecting best search strategy"],
            AgentRoute.Frame.tool Tool.Both,
            AgentRoute.Frame.progress ("Using " ++ "RAG + Web Search")
              ["Preparing to fetch information"]] ++
           (evts.map (fun ev => AgentRoute.Frame.progress ev.1 ev.2) ++
            ((if result.sources.isEmpty then []
              else [AgentRoute.Frame.sources result.sources]) ++
             ([AgentRoute.Frame.progress "Generating response"
                 ["Processing retrieved information",
                  "Crafting comprehensive answer"]] ++
              AgentRoute.messageFrames result.answer)))),
          AgentRoute.frameKind f ≠ AgentRoute.FrameKind.done := by
        intro f hf
        rcases List.mem_append.1 hf with hf | hf
        · simp only [List.mem_cons, List.not_mem_nil, or_false] at hf
          rcases hf with rfl | rfl | rfl <;> simp [AgentRoute.frameKind]
        · rcases List.mem_append.1 hf with hf | hf
          · rw [kind_of_mem_evFrames evts f hf]
            simp
          · rcases List.mem_append.1 hf with hf | hf
            · revert hf
              split
              · intro hf
                simp at hf
              · intro hf
                simp only [List.mem_singleton] at hf
                subst hf
                simp [AgentRoute.frameKind]
            · rcases List.mem_append.1 hf with hf | hf
              · simp only [List.mem_singleton] at hf
                subst hf
                simp [AgentRoute.frameKind]
              · rw [kind_of_mem_messageFrames result.answer f hf]
                simp
      refine ⟨?_, ?_, ?_⟩ <;> simp only [hpost]
      · rw [hmA]
        refine frame_order_split _ _ _ _ ?_ hTail
        intro f hf
        simp only [List.mem_cons, List.not_mem_nil, or_false] at hf
        rcases hf with rfl | rfl | rfl <;> simp [AgentRoute.frameKind]
      · rw [hmB]
        refine frame_order_split _ _ _ _ hNoDone ?_
        intro f hf
        simp only [List.mem_singleton] at hf
        subst hf
        simp [AgentRoute.frameKind]
      · rw [hmB]
        refine frame_order_split _ _ _ _ hNoDone ?_
        intro f hf
        simp only [List.mem_singleton] at hf
        subst hf
        simp [AgentRoute.frameKind]

def c5Body : AgentRoute.AgentRequestBody :=
  { query := "q", stream := true, webSearchOnly := false, model := none }

def c5Gen : String → String → ℚ → Except String String :=
  fun _ _ _ => Except.ok "generated"

def c5GenStream : String → String → ℚ → List String × Except String Unit :=
  fun _ _ _ => ([], Except.ok ())

def c5Rag : Except String RAGService.RAGSearchResult :=
  Except.ok { content := "ctx", sources := [] }

def c5Web : Except String WebSearchService.WebSearchResult :=
  Except.ok { content := "web", sources := [], answer := none }

/-- C5 witness: the ordering guarantees instantiated on a concrete
`Both`-mode streaming run. -/
theorem streaming_frame_order_witness :
    (∀ (i j : Nat) (f g : AgentRoute.Frame),
      (AgentRoute.routeStreamPOST { decisionModel := "m", generateModel := "m" }
        c5Gen c5GenStream (Except.ok Tool.Both) c5Rag c5Web c5Body)[i]? = some f →
      AgentRoute.frameKind f = AgentRoute.FrameKind.tool →
      (AgentRoute.routeStreamPOST { decisionModel := "m", generateModel := "m" }
        c5Gen c5GenStream (Except.ok Tool.Both) c5Rag c5Web c5Body)[j]? = some g →
      AgentRoute.frameKind g = AgentRoute.FrameKind.sources → i < j)
    ∧ (∀ (i j : Nat) (f g : AgentRoute.Frame),
      (AgentRoute.routeStreamPOST { decisionModel := "m", generateModel := "m" }
        c5Gen c5GenStream (Except.ok Tool.Both) c5Rag c5Web c5Body)[i]? = some f →
      AgentRoute.frameKind f = AgentRoute.FrameKind.sources →
      (AgentRoute.routeStreamPOST { decisionModel := "m", generateModel := "m" }
        c5Gen c5GenStream (Except.ok Tool.Both) c5Rag c5Web c5Body)[j]? = some g →
      AgentRoute.frameKind g = AgentRoute.FrameKind.done → i < j)
    ∧ (∀ (i j : Nat) (f g : AgentRoute.Frame),
      (AgentRoute.routeStreamPOST { decisionModel := "m", generateModel := "m" }
        c5Gen c5GenStream (Except.ok Tool.Both) c5Rag c5Web c5Body)[i]? = some f →
      AgentRoute.frameKind f = AgentRoute.FrameKind.message →
      (AgentRoute.routeStreamPOST { decisionModel := "m", generateModel := "m" }
        c5Gen c5GenStream (Except.ok Tool.Both) c5Rag c5Web c5Body)[j]? = some g →
      AgentRoute.frameKind g = AgentRoute.FrameKind.done → i < j) :=
  streaming_frame_order { decisionModel := "m", generateModel := "m" }
    c5Gen c5GenStream c5Rag c5Web c5Body rfl

theorem answer_gen_agree (cfg : AIAgent.AgentConfig)
    (gen gen2 : String → String → ℚ → Except String String)
    (ragS : Except String RAGService.RAGSearchResult)
    (webS : Except String WebSearchService.WebSearchResult)
    (cb : String → List String → Except String Unit) (tool : Tool)
    (q : String) (hagree : gen cfg.generateModel = gen2 cfg.generateModel) :
    AIAgent.answer cfg gen ragS webS cb tool q =
      AIAgent.answer cfg gen2 ragS webS cb tool q := by
  cases tool <;> simp only [AIAgent.answer, AIAgent.answerM, hagree]

/-- C9: in the streaming agent path with `webSearchOnly = false`, the
caller-supplied `model` field cannot influence generation: the route's
third argument to `answer` is dropped (2-parameter declaration), and
`answer` always drives the generation client at the configured generate
model.  Formally, for two generation clients that agree at the configured
model (but may differ elsewhere, e.g. at the caller's model) and two
bodies differing only in their `model` field, the emitted frame streams
are identical. -/
theorem model_field_noninterference (cfg : AIAgent.AgentConfig)
    (gen gen2 : String → String → ℚ → Except String String)
    (genStream : String → String → ℚ → List String × Except String Unit)
    (toolDecision : Except String Tool)
    (ragS : Except String RAGService.RAGSearchResult)
    (webS : Except String WebSearchService.WebSearchResult)
    (body : AgentRoute.AgentRequestBody) (m : Option String)
    (hwso : body.webSearchOnly = false)
    (hagree : gen cfg.generateModel = gen2 cfg.generateModel) :
    AgentRoute.routeStreamPOST cfg gen genStream toolDecision ragS webS body =
      AgentRoute.routeStreamPOST cfg gen2 genStream toolDecision ragS webS
        { body with model := m } := by
  have hwso2 : ({ body with model := m } :
      AgentRoute.AgentRequestBody).webSearchOnly = false := by
    simpa using hwso
  rw [AgentRoute.routeStreamPOST, AgentRoute.routeStreamPOST,
    if_neg (by simpa using hwso), if_neg (by simpa using hwso2)]
  cases toolDecision with
  | error e => simp [AgentRoute.routeStreamMain]
  | ok tool =>
      simp only [AgentRoute.routeStreamMain, AgentRoute.answerCalledWithExtra]
      rw [answer_gen_agree cfg gen gen2 ragS webS (fun _ _ => Except.ok ())
        tool body.query hagree]

def c9Gen : String → String → ℚ → Except String String :=
  fun md _ _ => if md == "cfgmodel" then Except.ok "A" else Except.ok "B1"

def c9Gen2 : String → String → ℚ → Except String String :=
  fun md _ _ => if md == "cfgmodel" then Except.ok "A" else Except.ok "B2"

def c9GenStream : String → String → ℚ → List String × Except String Unit :=
  fun _ _ _ => ([], Except.ok ())

def c9Body : AgentRoute.AgentRequestBody :=
  { query := "q", stream := true, webSearchOnly := false, model := none }

def c9Rag : Except String RAGService.RAGSearchResult :=
  Except.ok { content := "ctx", sources := [] }

def c9Web : Except String WebSearchService.WebSearchResult :=
  Except.ok { content := "web", sources := [], answer := none }

/-- C9 witness: two concrete requests differing only in their `model`
field, driven by generation clients that differ away from the configured
model, produce identical frame streams. -/
theorem model_field_noninterference_witness :
    AgentRoute.routeStreamPOST
        { decisionModel := "m", generateModel := "cfgmodel" } c9Gen
        c9GenStream (Except.ok Tool.Both) c9Rag c9Web c9Body =
      AgentRoute.routeStreamPOST
        { decisionModel := "m", generateModel := "cfgmodel" } c9Gen2
        c9GenStream (Except.ok Tool.Both) c9Rag c9Web
        { c9Body with model := some "user-model" } :=
  model_field_noninterference
    { decisionModel := "m", generateModel := "cfgmodel" } c9Gen c9Gen2
    c9GenStream (Except.ok Tool.Both) c9Rag c9Web c9Body
    (some "user-model") rfl (by funext p t; rfl)

/-! ### One-time agent initialization (`getAgent`)

The route wires the services as module-level singletons: the first request
runs the try block; a captured initialization error is re-thrown on every
subsequent request.  The data.json auto-load runs in its own try/catch and
its failure is only warned, so it does not influence initialization
success and is not branched on. -/

namespace AgentRoute

structure AgentHandle where
  config : AIAgent.AgentConfig
  webConfig : WebSearchService.WebSearchConfig
deriving DecidableEq, Repr

/-- The environment read by the one-time initialization. -/
structure InitEnv where
  tavilyApiKey : Option String
  ragInit : Except String Unit
  collectionCount : Except String Nat
  dataLoad : Except String Unit
  agentConfig : AIAgent.AgentConfig
  webSearchMaxResults : Nat
  webSearchTimeout : Nat
  webSearchCacheDuration : Nat

/-- The `getAgent` try block: `rag.initialize()` and the collection count
can reject; the web search client is constructed with
`tavilyApiKey || ""`, and an empty credential makes its constructor
throw. -/
def initAgent (env : InitEnv) : Except String AgentHandle :=
  match env.ragInit with
  | Except.error e => Except.error e
  | Except.ok _ =>
      match env.collectionCount with
      | Except.error e => Except.error e
      | Except.ok _count =>
          match WebSearchService.make
              { apiKey := env.tavilyApiKey.getD "",
                maxResults := env.webSearchMaxResults,
                timeout := env.webSearchTimeout,
                cacheDuration := env.webSearchCacheDuration } with
          | Except.error e => Except.error e
          | Except.ok wcfg =>
              Except.ok { config := env.agentConfig, webConfig := wcfg }

/-- The module-level singleton state (`agentInstance`, `initError`). -/
structure AgentState where
  agentInstance : Option AgentHandle
  initError : Option String
deriving DecidableEq, Repr

/-- `getAgent`: re-throw a captured init error; return the instance if
present; otherwise initialize once, capturing failure permanently. -/
def getAgent (env : InitEnv) (st : AgentState) :
    AgentState × Except String AgentHandle :=
  match st.initError with
  | some e => (st, Except.error e)
  | none =>
      match st.agentInstance with
      | some a => (st, Except.ok a)
      | none =>
          match initAgent env with
          | Except.ok a =>
              ({ agentInstance := some a, initError := none }, Except.ok a)
          | Except.error e =>
              ({ agentInstance := none, initError := some e }, Except.error e)

/-- The `GET` status probe: `getAgent`, then document count and whether a
web-search credential is configured (JavaScript truthiness: an empty
string does not count). -/
def routeGET (env : InitEnv) (st : AgentState) :
    AgentState × Except String (Nat × Bool) :=
  match getAgent env st with
  | (st2, Except.error e) => (st2, Except.error e)
  | (st2, Except.ok _) =>
      match env.collectionCount with
      | Except.error e => (st2, Except.error e)
      | Except.ok n =>
          (st2, Except.ok (n, decide (env.tavilyApiKey.getD "" ≠ "")))

/-- The gate every `POST` request passes: query validation, then
`getAgent`; all agent work (including `Local`-only queries) happens only
after it succeeds. -/
def routePOSTGate (env : InitEnv) (st : AgentState)
    (body : AgentRequestBody) : AgentState × Except String AgentHandle :=
  if body.query = "" then
    (st, Except.error "Missing or invalid query field")
  else getAgent env st

end AgentRoute

/-- C10: with a missing (or empty) web-search credential, the web search
client constructor throws, the one-time initialization fails with that
error, the first `getAgent` captures it, and every subsequent request —
`POST` with any non-empty query (including Local-only queries) and the
`GET` status probe — fails with the captured error: web search is not
merely disabled. -/
theorem missing_credential_fails_all (env : AgentRoute.InitEnv)
    (hkey : env.tavilyApiKey.getD "" = "")
    (hrag : env.ragInit = Except.ok ()) (c : Nat)
    (hcount : env.collectionCount = Except.ok c) :
    (WebSearchService.make
        { apiKey := env.tavilyApiKey.getD "",
          maxResults := env.webSearchMaxResults,
          timeout := env.webSearchTimeout,
          cacheDuration := env.webSearchCacheDuration } =
      Except.error "Tavily API key is required for web search")
    ∧ AgentRoute.initAgent env =
        Except.error "Tavily API key is required for web search"
    ∧ AgentRoute.getAgent env { agentInstance := none, initError := none } =
        ({ agentInstance := none,
           initError := some "Tavily API key is required for web search" },
         Except.error "Tavily API key is required for web search")
    ∧ (∀ (st : AgentRoute.AgentState) (e : String), st.initError = some e →
        (AgentRoute.getAgent env st).2 = Except.error e
        ∧ (AgentRoute.routeGET env st).2 = Except.error e
        ∧ (∀ body : AgentRoute.AgentRequestBody, body.query ≠ "" →
            (AgentRoute.routePOSTGate env st body).2 = Except.error e)) := by
  have hmake : WebSearchService.make
      { apiKey := env.tavilyApiKey.getD "",
        maxResults := env.webSearchMaxResults,
        timeout := env.webSearchTimeout,
        cacheDuration := env.webSearchCacheDuration } =
      Except.error "Tavily API key is required for web search" := by
    unfold WebSearchService.make
    rw [if_pos hkey]
  have hinit : AgentRoute.initAgent env =
      Except.error "Tavily API key is required for web search" := by
    unfold AgentRoute.initAgent
    rw [hrag, hcount, hmake]
  have hget : ∀ (st : AgentRoute.AgentState) (e : String),
      st.initError = some e →
      AgentRoute.getAgent env st = (st, Except.error e) := by
    intro st e hst
    unfold AgentRoute.getAgent
    rw [hst]
  refine ⟨hmake, hinit, ?_, ?_⟩
  · unfold AgentRoute.getAgent
    simp only [hinit]
  · intro st e hst
    refine ⟨by rw [hget st e hst], ?_, ?_⟩
    · unfold AgentRoute.routeGET
      rw [hget st e hst]
    · intro body hq
      unfold AgentRoute.routePOSTGate
      rw [if_neg hq, hget st e hst]

def c10Env : AgentRoute.InitEnv :=
  { tavilyApiKey := none, ragInit := Except.ok (),
    collectionCount := Except.ok 0, dataLoad := Except.ok (),
    agentConfig := { decisionModel := "m", generateModel := "m" },
    webSearchMaxResults := 5, webSearchTimeout := 20000,
    webSearchCacheDuration := 300000 }

/-- C10 witness: with no credential configured, the first `getAgent`
captures the constructor error, and with it captured, a Local-only `POST`
and the `GET` probe both fail with that error. -/
theorem missing_credential_fails_all_witness :
    AgentRoute.getAgent c10Env { agentInstance := none, initError := none } =
      ({ agentInstance := none,
         initError := some "Tavily API key is required for web search" },
       Except.error "Tavily API key is required for web search") ∧
    (AgentRoute.routePOSTGate c10Env
      { agentInstance := none,
        initError := some "Tavily API key is required for web search" }
      { query := "what is authrix", stream := false, webSearchOnly := false,
        model := none }).2 =
      Except.error "Tavily API key is required for web search" ∧
    (AgentRoute.routeGET c10Env
      { agentInstance := none,
        initError := some "Tavily API key is required for web search" }).2 =
      Except.error "Tavily API key is required for web search" :=
  ⟨(missing_credential_fails_all c10Env rfl rfl 0 rfl).2.2.1,
   ((missing_credential_fails_all c10Env rfl rfl 0 rfl).2.2.2 _ _ rfl).2.2 _
     (by decide),
   ((missing_credential_fails_all c10Env rfl rfl 0 rfl).2.2.2 _ _ rfl).2.1⟩
